import Mathlib

/-!
Verification of the milestone detection and tracking engine of the
Scrapyard leaderboard bot (`index.js`).  The engine's per-event logic lives
in `checkMilestones`; the threshold computation in `getNextMilestone`.
Machine numbers in the source are JS doubles holding integer registration
counts; we model them as `Nat`.  The single fractional comparison
`currentMilestone >= lastMilestoneNotified * 1.2` is modelled by the exact
rational comparison `6 * prev <= 5 * m`, with which the IEEE-double
computation agrees on all integer operands in the representable range of
registration counts.
-/

namespace Scrapyard

/-- `getNextMilestone` from `index.js` (lines 345-353): the milestone bucket
for a registration count — the largest multiple of 10 below the count when
the count is under 50, otherwise the largest multiple of 20 below it. -/
def getNextMilestone (totalRegistrations : Nat) : Nat :=
  if totalRegistrations < 50 then
    totalRegistrations / 10 * 10
  else
    totalRegistrations / 20 * 20

/-- One row of the `event_tracking` table, apart from the `event_name`
primary key.  Timestamps are abstract instants modelled as `Nat`. -/
structure EventRecord where
  event_slug : Option String
  last_known_count : Nat
  last_milestone_notified : Nat
  last_notified_at : Option Nat
  last_updated_at : Nat
deriving DecidableEq

/-- The branch the per-event body of `checkMilestones` takes for one
snapshot: `skip` is the `continue` on a zero count or empty name,
`startTracking` the INSERT branch for an unseen event, `notify` the
milestone-notification branch, `updateOnly` the count-refresh branch, and
`ignore` the fall-through that performs no write. -/
inductive Decision where
  | skip
  | startTracking
  | notify
  | updateOnly
  | ignore
deriving DecidableEq

/-- Lines 548-555 of `checkMilestones`: `crossedNewMilestone` is a strict
milestone increase; for events whose last notified milestone is at least 50
the crossing must additionally be at least a 20 percent relative increase
(`currentMilestone >= lastMilestoneNotified * 1.2`, modelled exactly). -/
def shouldNotifyFlag (lastMilestoneNotified currentMilestone : Nat) : Bool :=
  let crossedNewMilestone : Bool := decide (lastMilestoneNotified < currentMilestone)
  if decide (50 ≤ lastMilestoneNotified) && crossedNewMilestone then
    decide (6 * lastMilestoneNotified ≤ 5 * currentMilestone)
  else
    crossedNewMilestone

/-- Lines 539-598 of `checkMilestones`: processing of one snapshot for an
event already present in the store, on the success path (delivery and store
writes succeed).  Returns the branch taken and the record stored
afterwards.  The `notify` branch rewrites count, milestone, slug and both
timestamps; the `updateOnly` branch rewrites count, slug and
`last_updated_at`; the fall-through leaves the row untouched. -/
def processTracked (r : EventRecord) (currentCount : Nat) (eventSlug : Option String)
    (now : Nat) : Decision × EventRecord :=
  let currentMilestone := getNextMilestone currentCount
  if shouldNotifyFlag r.last_milestone_notified currentMilestone
      && decide (10 ≤ currentCount) then
    (Decision.notify,
      { r with
          last_known_count := currentCount,
          last_milestone_notified := currentMilestone,
          event_slug := eventSlug,
          last_notified_at := some now,
          last_updated_at := now })
  else if currentCount ≠ r.last_known_count then
    (Decision.updateOnly,
      { r with
          last_known_count := currentCount,
          event_slug := eventSlug,
          last_updated_at := now })
  else
    (Decision.ignore, r)

/-- Lines 490-599 of `checkMilestones`: the per-event body for one snapshot,
on the success path.  `none` for the stored record means the event is not
yet tracked.  A zero count is skipped (`continue` at line 502; the snapshot
query only returns rows with `total_sign_ups > 0`). -/
def processEvent (stored : Option EventRecord) (currentCount : Nat)
    (eventSlug : Option String) (now : Nat) : Decision × Option EventRecord :=
  if currentCount = 0 then
    (Decision.skip, stored)
  else
    match stored with
    | none =>
      (Decision.startTracking,
        some { event_slug := eventSlug,
               last_known_count := currentCount,
               last_milestone_notified := getNextMilestone currentCount,
               last_notified_at := none,
               last_updated_at := now })
    | some r =>
      let p := processTracked r currentCount eventSlug now
      (p.1, some p.2)

/-- Observable outcome of one iteration of the event loop after the store
SELECT succeeded: the branch taken, whether a notification was delivered,
whether the store INSERT/UPDATE was reached at all, whether it succeeded,
and the record stored afterwards. -/
structure EventOutcome where
  decision : Decision
  delivered : Bool
  updateAttempted : Bool
  wrote : Bool
  newRec : Option EventRecord
deriving DecidableEq

/-- Lines 490-599 of `checkMilestones` with the failure behaviour of the
inner `try`/`catch` blocks made explicit.  `notifyOk` is the outcome of
`chat.postMessage`, `writeOk` the outcome of the store INSERT/UPDATE.  In
the notify branch (lines 559-583) the UPDATE sits inside the same `try` as
the delivery and after it, so a delivery failure jumps to the `catch` and
the UPDATE is never reached; a failed INSERT or UPDATE is caught and leaves
the stored row as it was. -/
def processEventFallible (notifyOk writeOk : Bool) (stored : Option EventRecord)
    (currentCount : Nat) (eventSlug : Option String) (now : Nat) : EventOutcome :=
  if currentCount = 0 then
    ⟨Decision.skip, false, false, false, stored⟩
  else
    match stored with
    | none =>
      if writeOk then
        ⟨Decision.startTracking, false, true, true,
          some { event_slug := eventSlug,
                 last_known_count := currentCount,
                 last_milestone_notified := getNextMilestone currentCount,
                 last_notified_at := none,
                 last_updated_at := now }⟩
      else
        ⟨Decision.startTracking, false, true, false, none⟩
    | some r =>
      let currentMilestone := getNextMilestone currentCount
      if shouldNotifyFlag r.last_milestone_notified currentMilestone
          && decide (10 ≤ currentCount) then
        if notifyOk then
          if writeOk then
            ⟨Decision.notify, true, true, true,
              some { r with
                       last_known_count := currentCount,
                       last_milestone_notified := currentMilestone,
                       event_slug := eventSlug,
                       last_notified_at := some now,
                       last_updated_at := now }⟩
          else
            ⟨Decision.notify, true, true, false, some r⟩
        else
          ⟨Decision.notify, false, false, false, some r⟩
      else if currentCount ≠ r.last_known_count then
        if writeOk then
          ⟨Decision.updateOnly, false, true, true,
            some { r with
                     last_known_count := currentCount,
                     event_slug := eventSlug,
                     last_updated_at := now }⟩
        else
          ⟨Decision.updateOnly, false, true, false, some r⟩
      else
        ⟨Decision.ignore, false, false, false, some r⟩

/-- One row of a cycle's snapshot list, together with the fate of this
event's collaborator calls in the cycle being modelled: whether the store
SELECT, the notification delivery and the store INSERT/UPDATE succeed. -/
structure EventInput where
  event_name : String
  event_slug : Option String
  total_sign_ups : Nat
  readOk : Bool
  notifyOk : Bool
  writeOk : Bool
deriving DecidableEq

/-- Lookup of `event_tracking` by primary key, the store modelled as an
association list. -/
def lookupRec : List (String × EventRecord) → String → Option EventRecord
  | [], _ => none
  | (k, v) :: rest, name => if k = name then some v else lookupRec rest name

/-- Upsert of `event_tracking` by primary key. -/
def setRec : List (String × EventRecord) → String → EventRecord →
    List (String × EventRecord)
  | [], name, v => [(name, v)]
  | (k, w) :: rest, name, v =>
    if k = name then (k, v) :: rest else (k, w) :: setRec rest name v

/-- The `for` loop of `checkMilestones` (lines 490-600) over a cycle's
snapshot list, together with the outer `try`/`catch` of lines 476-603.  The
store SELECT at line 508 is not wrapped in its own `try`, so a failed read
(`readOk = false`) propagates to the outer `catch` and aborts the rest of
the cycle; INSERT, UPDATE and delivery failures are caught inside the loop
body.  Returns the final store and the names of the events whose loop
iteration completed. -/
def checkMilestonesCycle (now : Nat) :
    List EventInput → List (String × EventRecord) →
      List (String × EventRecord) × List String
  | [], store => (store, [])
  | e :: rest, store =>
    if e.event_name = "" ∨ e.total_sign_ups = 0 then
      let p := checkMilestonesCycle now rest store
      (p.1, e.event_name :: p.2)
    else if e.readOk then
      let o := processEventFallible e.notifyOk e.writeOk
                 (lookupRec store e.event_name) e.total_sign_ups e.event_slug now
      let store' :=
        if o.wrote then
          match o.newRec with
          | some r => setRec store e.event_name r
          | none => store
        else store
      let p := checkMilestonesCycle now rest store'
      (p.1, e.event_name :: p.2)
    else
      (store, [])

/-- `processTracked` with the `currentCount >= 10` conjunct of line 558
removed; everything else verbatim.  Used to settle the redundancy claim
about that guard. -/
def processTrackedNoGuard (r : EventRecord) (currentCount : Nat)
    (eventSlug : Option String) (now : Nat) : Decision × EventRecord :=
  let currentMilestone := getNextMilestone currentCount
  if shouldNotifyFlag r.last_milestone_notified currentMilestone then
    (Decision.notify,
      { r with
          last_known_count := currentCount,
          last_milestone_notified := currentMilestone,
          event_slug := eventSlug,
          last_notified_at := some now,
          last_updated_at := now })
  else if currentCount ≠ r.last_known_count then
    (Decision.updateOnly,
      { r with
          last_known_count := currentCount,
          event_slug := eventSlug,
          last_updated_at := now })
  else
    (Decision.ignore, r)

/-! ### Helper lemmas about the milestone function and the notify flag -/

theorem getNextMilestone_le (n : Nat) : getNextMilestone n ≤ n := by
  unfold getNextMilestone
  split
  · exact Nat.div_mul_le_self n 10
  · exact Nat.div_mul_le_self n 20

theorem getNextMilestone_pos_ten (n : Nat) (h : 0 < getNextMilestone n) : 10 ≤ n := by
  by_cases h50 : n < 50
  · by_cases h10 : n < 10
    · exfalso
      have : n / 10 = 0 := Nat.div_eq_of_lt h10
      unfold getNextMilestone at h
      rw [if_pos h50, this] at h
      simp at h
    · omega
  · omega

theorem shouldNotifyFlag_true_iff (p m : Nat) :
    shouldNotifyFlag p m = true ↔ p < m ∧ (p < 50 ∨ 6 * p ≤ 5 * m) := by
  unfold shouldNotifyFlag
  by_cases h50 : 50 ≤ p
  · by_cases hc : p < m
    · simp [h50, hc]
    · simp [h50, hc]
  · by_cases hc : p < m
    · simp [h50, hc]
      omega
    · simp [h50, hc]

theorem shouldNotifyFlag_crossed {p m : Nat} (h : shouldNotifyFlag p m = true) :
    p < m :=
  ((shouldNotifyFlag_true_iff p m).mp h).1

theorem shouldNotifyFlag_ten_le {p c : Nat}
    (h : shouldNotifyFlag p (getNextMilestone c) = true) : 10 ≤ c := by
  have hlt : p < getNextMilestone c := shouldNotifyFlag_crossed h
  exact getNextMilestone_pos_ten c (Nat.lt_of_le_of_lt (Nat.zero_le p) hlt)

/-- Re-observing a tracked record at exactly its stored count, when the
notify guard fails, takes the fall-through branch and leaves the record
untouched. -/
theorem processTracked_stable (r : EventRecord) (slug : Option String) (now' : Nat)
    (hg : (shouldNotifyFlag r.last_milestone_notified
        (getNextMilestone r.last_known_count)
      && decide (10 ≤ r.last_known_count)) = false) :
    processTracked r r.last_known_count slug now' = (Decision.ignore, r) := by
  simp only [processTracked, hg, Bool.false_eq_true, if_false]
  simp

/-! ### Claim theorems -/

/-- Claim C2: for every non-negative count, `getNextMilestone` returns the
largest multiple of 10 that is at most the count when the count is below 50,
and the largest multiple of 20 that is at most the count otherwise; and it
takes the listed values at 9, 10, 49, 50, 59, 60, 119 and 120. -/
theorem milestone_floor_spec :
    (∀ n : Nat,
      (n < 50 → 10 ∣ getNextMilestone n ∧ getNextMilestone n ≤ n ∧
        ∀ k, 10 ∣ k → k ≤ n → k ≤ getNextMilestone n) ∧
      (50 ≤ n → 20 ∣ getNextMilestone n ∧ getNextMilestone n ≤ n ∧
        ∀ k, 20 ∣ k → k ≤ n → k ≤ getNextMilestone n)) ∧
    getNextMilestone 9 = 0 ∧ getNextMilestone 10 = 10 ∧
    getNextMilestone 49 = 40 ∧ getNextMilestone 50 = 40 ∧
    getNextMilestone 59 = 40 ∧ getNextMilestone 60 = 60 ∧
    getNextMilestone 119 = 100 ∧ getNextMilestone 120 = 120 := by
  refine ⟨fun n => ⟨fun h50 => ?_, fun h50 => ?_⟩, by decide, by decide,
    by decide, by decide, by decide, by decide, by decide, by decide⟩
  · have hm : getNextMilestone n = n / 10 * 10 := by
      unfold getNextMilestone; rw [if_pos h50]
    refine ⟨⟨n / 10, by rw [hm]; ring⟩, by rw [hm]; exact Nat.div_mul_le_self n 10, ?_⟩
    intro k hk hkn
    obtain ⟨j, rfl⟩ := hk
    rw [hm]
    have hj : j ≤ n / 10 := by
      rw [Nat.le_div_iff_mul_le (by norm_num)]
      omega
    omega
  · have hm : getNextMilestone n = n / 20 * 20 := by
      unfold getNextMilestone; rw [if_neg (by omega)]
    refine ⟨⟨n / 20, by rw [hm]; ring⟩, by rw [hm]; exact Nat.div_mul_le_self n 20, ?_⟩
    intro k hk hkn
    obtain ⟨j, rfl⟩ := hk
    rw [hm]
    have hj : j ≤ n / 20 := by
      rw [Nat.le_div_iff_mul_le (by norm_num)]
      omega
    omega

/-- Witness for C2 at a concrete input. -/
theorem milestone_floor_spec_witness : 10 ∣ getNextMilestone 49 :=
  ((milestone_floor_spec.1 49).1 (by decide)).1

/-- Claim C1: for a tracked event the engine takes the notify decision
exactly when the fresh milestone strictly exceeds the stored one and either
the stored milestone is below 50, or it is at least 50 and the fresh
milestone is at least 1.2 times it; in particular from a record with count
95 and milestone 80, a snapshot of 100 yields the notify decision. -/
theorem notify_decision_iff :
    (∀ (r : EventRecord) (count : Nat) (slug : Option String) (now : Nat),
      (processTracked r count slug now).1 = Decision.notify ↔
        ((r.last_milestone_notified < getNextMilestone count ∧
            r.last_milestone_notified < 50) ∨
         (r.last_milestone_notified < getNextMilestone count ∧
            50 ≤ r.last_milestone_notified ∧
            6 * r.last_milestone_notified ≤ 5 * getNextMilestone count))) ∧
    (processTracked ⟨none, 95, 80, none, 0⟩ 100 none 1).1 = Decision.notify := by
  constructor
  · intro r count slug now
    have key : (processTracked r count slug now).1 = Decision.notify ↔
        shouldNotifyFlag r.last_milestone_notified (getNextMilestone count) = true := by
      constructor
      · intro h
        by_contra hf
        have hf' : shouldNotifyFlag r.last_milestone_notified (getNextMilestone count) = false :=
          Bool.eq_false_iff.mpr hf
        simp only [processTracked, hf', Bool.false_and, Bool.false_eq_true,
          if_false] at h
        split at h
        · exact Decision.noConfusion h
        · exact Decision.noConfusion h
      · intro hf
        have h10 : 10 ≤ count := shouldNotifyFlag_ten_le hf
        simp [processTracked, hf, h10]
    rw [key, shouldNotifyFlag_true_iff]
    omega
  · decide

/-- Claim C3: an event with no stored record always transitions to tracked:
the engine inserts a row holding the observed count and its milestone, with
no notification timestamp, and the decision is never a notification, however
large the count (snapshot counts are positive by the source query's
`total_sign_ups > 0` filter). -/
theorem untracked_first_sighting (count : Nat) (slug : Option String) (now : Nat)
    (hpos : 0 < count) :
    processEvent none count slug now =
      (Decision.startTracking,
        some { event_slug := slug,
               last_known_count := count,
               last_milestone_notified := getNextMilestone count,
               last_notified_at := none,
               last_updated_at := now }) ∧
    (processEvent none count slug now).1 ≠ Decision.notify := by
  have hz : ¬ count = 0 := by omega
  constructor
  · simp [processEvent, hz]
  · simp [processEvent, hz]

/-- Witness for C3 at the spec's example count 85. -/
theorem untracked_first_sighting_witness :
    (processEvent none 85 none 4).1 ≠ Decision.notify :=
  (untracked_first_sighting 85 none 4 (by decide)).2

/-- Claim C4: processing a snapshot is idempotent under unchanged input:
running the engine again on the state it just produced, with the identical
snapshot, yields the ignore decision and leaves the stored record exactly
as it was — no further write and no further notification. -/
theorem idempotent_reprocess (stored : Option EventRecord) (count : Nat)
    (slug : Option String) (now now' : Nat) (hpos : 0 < count) :
    processEvent (processEvent stored count slug now).2 count slug now' =
      (Decision.ignore, (processEvent stored count slug now).2) := by
  have hz : ¬ count = 0 := by omega
  cases stored with
  | none =>
    simp [processEvent, hz, processTracked, shouldNotifyFlag]
  | some r =>
    by_cases hg : (shouldNotifyFlag r.last_milestone_notified (getNextMilestone count)
        && decide (10 ≤ count)) = true
    · have hp : processTracked r count slug now =
          (Decision.notify,
            { r with
                last_known_count := count,
                last_milestone_notified := getNextMilestone count,
                event_slug := slug,
                last_notified_at := some now,
                last_updated_at := now }) := by
        simp [processTracked, hg]
      have step1 : processEvent (some r) count slug now =
          (Decision.notify,
            some { r with
                last_known_count := count,
                last_milestone_notified := getNextMilestone count,
                event_slug := slug,
                last_notified_at := some now,
                last_updated_at := now }) := by
        simp [processEvent, hz, hp]
      rw [step1]
      simp [processEvent, hz, processTracked, shouldNotifyFlag]
    · have hgf : (shouldNotifyFlag r.last_milestone_notified (getNextMilestone count)
          && decide (10 ≤ count)) = false := Bool.eq_false_iff.mpr hg
      have hnot : ¬(shouldNotifyFlag r.last_milestone_notified (getNextMilestone count)
          = true ∧ 10 ≤ count) := by
        rintro ⟨h1, h2⟩
        simp [h1, h2] at hgf
      by_cases hc : count = r.last_known_count
      · have h0 : (shouldNotifyFlag r.last_milestone_notified
            (getNextMilestone r.last_known_count)
            && decide (10 ≤ r.last_known_count)) = false := by
          rw [← hc]
          exact hgf
        have hp : processTracked r count slug now = (Decision.ignore, r) := by
          rw [hc]
          exact processTracked_stable r slug now h0
        have hst : processTracked r count slug now' = (Decision.ignore, r) := by
          rw [hc]
          exact processTracked_stable r slug now' h0
        simp [processEvent, hz, hp, hst]
      · have hp : processTracked r count slug now =
            (Decision.updateOnly,
              { r with
                  last_known_count := count,
                  event_slug := slug,
                  last_updated_at := now }) := by
          simp [processTracked, hgf, hc]
        have step1 : processEvent (some r) count slug now =
            (Decision.updateOnly,
              some { r with
                  last_known_count := count,
                  event_slug := slug,
                  last_updated_at := now }) := by
          simp [processEvent, hz, hp]
        rw [step1]
        simp [processEvent, hz, processTracked, hnot]

/-- Witness for C4 at a concrete input. -/
theorem idempotent_reprocess_witness :
    processEvent (processEvent none 12 none 3).2 12 none 5 =
      (Decision.ignore, (processEvent none 12 none 3).2) :=
  idempotent_reprocess none 12 none 3 5 (by decide)

/-- Claim C5 counterexample: a tracked event re-observed at its stored count
takes the ignore branch, which performs no write, so `last_updated_at`
keeps its old value (0) instead of the observation time (7): the field is
not set on every observation. -/
theorem last_updated_stale_on_ignore :
    (processTracked ⟨none, 15, 10, none, 0⟩ 15 none 7).1 = Decision.ignore ∧
    ((processTracked ⟨none, 15, 10, none, 0⟩ 15 none 7).2).last_updated_at ≠ 7 := by
  decide

/-- Claim C5 amended: `last_updated_at` is set to the observation time on
every observation that performs a write (start of tracking, notification,
count refresh), but on the ignore branch — observed count equal to the
stored count with no notification due — no write happens and the field
keeps its previous value. -/
theorem last_updated_set_on_write (stored : Option EventRecord) (count : Nat)
    (slug : Option String) (now : Nat) (hpos : 0 < count)
    (hmut : (processEvent stored count slug now).1 ≠ Decision.ignore) :
    Option.map EventRecord.last_updated_at (processEvent stored count slug now).2 =
      some now := by
  have hz : ¬ count = 0 := by omega
  cases stored with
  | none => simp [processEvent, hz]
  | some r =>
    by_cases hg : (shouldNotifyFlag r.last_milestone_notified (getNextMilestone count)
        && decide (10 ≤ count)) = true
    · simp [processEvent, hz, processTracked, hg]
    · have hgf : (shouldNotifyFlag r.last_milestone_notified (getNextMilestone count)
          && decide (10 ≤ count)) = false := Bool.eq_false_iff.mpr hg
      by_cases hc : count = r.last_known_count
      · exfalso
        apply hmut
        have h0 : (shouldNotifyFlag r.last_milestone_notified
            (getNextMilestone r.last_known_count)
            && decide (10 ≤ r.last_known_count)) = false := by
          rw [← hc]
          exact hgf
        have hp : processTracked r count slug now = (Decision.ignore, r) := by
          rw [hc]
          exact processTracked_stable r slug now h0
        simp [processEvent, hz, hp]
      · simp [processEvent, hz, processTracked, hgf, hc]

/-- Witness for the amended C5 at a concrete input. -/
theorem last_updated_set_on_write_witness :
    Option.map EventRecord.last_updated_at (processEvent none 12 none 3).2 = some 3 :=
  last_updated_set_on_write none 12 none 3 (by decide) (by decide)

/-- Claim C6 counterexample: with a stored record at count 55 and milestone
40, a snapshot of 61 takes the notify branch; when delivery fails the
UPDATE — inside the same `try`, after the delivery call — is never
attempted and the row is unchanged, so a delivery failure does prevent the
state update from being attempted. -/
theorem notify_failure_blocks_update :
    processEventFallible false true (some ⟨none, 55, 40, none, 0⟩) 61 none 9 =
      ⟨Decision.notify, false, false, false, some ⟨none, 55, 40, none, 0⟩⟩ := by
  decide

/-- Claim C6 amended: in the notify branch a delivery failure
short-circuits the iteration: the state update is not attempted and the
stored record is unchanged; the exception is caught, so processing
continues. -/
theorem notify_failure_skips_update (r : EventRecord) (count : Nat)
    (slug : Option String) (now : Nat) (writeOk : Bool)
    (hf : shouldNotifyFlag r.last_milestone_notified (getNextMilestone count) = true) :
    processEventFallible false writeOk (some r) count slug now =
      ⟨Decision.notify, false, false, false, some r⟩ := by
  have h10 : 10 ≤ count := shouldNotifyFlag_ten_le hf
  have hz : ¬ count = 0 := by omega
  simp [processEventFallible, hz, hf, h10]

/-- Witness for the amended C6 at a concrete input. -/
theorem notify_failure_skips_update_witness :
    processEventFallible false true (some ⟨none, 95, 80, none, 2⟩) 100 none 9 =
      ⟨Decision.notify, false, false, false, some ⟨none, 95, 80, none, 2⟩⟩ :=
  notify_failure_skips_update ⟨none, 95, 80, none, 2⟩ 100 none 9 true (by decide)

/-- Claim C7 counterexample: in a two-event cycle where the first event's
store read fails, the second event — whose own collaborator calls all
succeed — is not processed: the read failure aborts the whole cycle instead
of skipping only the failing event. -/
theorem read_failure_aborts_cycle :
    "b" ∉ (checkMilestonesCycle 3
      [⟨"a", none, 12, false, true, true⟩, ⟨"b", none, 12, true, true, true⟩]
      []).2 := by
  decide

/-- Claim C7 amended: write and delivery failures are isolated per event —
when every store read succeeds, every event's loop iteration completes, no
matter which inserts, updates or deliveries fail — but a store read failure
aborts the remainder of the cycle. -/
theorem write_failures_isolated (now : Nat) (events : List EventInput)
    (hreads : ∀ e ∈ events, e.readOk = true) :
    ∀ store : List (String × EventRecord),
      (checkMilestonesCycle now events store).2 =
        events.map EventInput.event_name := by
  induction events with
  | nil => intro store; rfl
  | cons e rest ih =>
    intro store
    have he : e.readOk = true := hreads e (List.mem_cons_self e rest)
    have hrest : ∀ x ∈ rest, x.readOk = true := fun x hx =>
      hreads x (List.mem_cons_of_mem e hx)
    by_cases hskip : e.event_name = "" ∨ e.total_sign_ups = 0
    · simp only [checkMilestonesCycle, if_pos hskip, List.map_cons]
      simp [ih hrest store]
    · simp only [checkMilestonesCycle, if_neg hskip, he, if_true, List.map_cons]
      simp [ih hrest]

/-- Witness for the amended C7: a cycle with one failing write and one
failing delivery still completes both events. -/
theorem write_failures_isolated_witness :
    (checkMilestonesCycle 3
      [⟨"a", none, 12, true, true, false⟩, ⟨"b", none, 12, true, false, true⟩]
      []).2 = ["a", "b"] := by
  have h := write_failures_isolated 3
    [⟨"a", none, 12, true, true, false⟩, ⟨"b", none, 12, true, false, true⟩]
    (by decide) []
  simpa using h

/-- Claim C8: no transition of a tracked event lowers
`last_milestone_notified`: after processing any snapshot the stored
milestone is at least the stored milestone before, even when the observed
count drops below the stored count. -/
theorem milestone_monotone (r : EventRecord) (count : Nat)
    (slug : Option String) (now : Nat) :
    r.last_milestone_notified ≤
      ((processTracked r count slug now).2).last_milestone_notified := by
  simp only [processTracked]
  split
  · next hg =>
    rw [Bool.and_eq_true] at hg
    exact Nat.le_of_lt (shouldNotifyFlag_crossed hg.1)
  · split
    · exact Nat.le_refl _
    · exact Nat.le_refl _

/-- Claim C9: a snapshot whose count is below 10 never yields the notify
decision, whatever the stored state. -/
theorem no_notify_below_ten (stored : Option EventRecord) (count : Nat)
    (slug : Option String) (now : Nat) (h : count < 10) :
    (processEvent stored count slug now).1 ≠ Decision.notify := by
  by_cases hz : count = 0
  · simp [processEvent, hz]
  · cases stored with
    | none => simp [processEvent, hz]
    | some r =>
      have h10 : ¬ 10 ≤ count := by omega
      have hgf : (shouldNotifyFlag r.last_milestone_notified (getNextMilestone count)
          && decide (10 ≤ count)) = false := by
        rw [decide_eq_false h10, Bool.and_false]
      simp only [processEvent, if_neg hz, processTracked, hgf, Bool.false_eq_true,
        if_false]
      split
      · exact fun hc => Decision.noConfusion hc
      · exact fun hc => Decision.noConfusion hc

/-- Witness for C9 at a concrete input. -/
theorem no_notify_below_ten_witness :
    (processEvent (some ⟨none, 9, 0, none, 0⟩) 9 none 2).1 ≠ Decision.notify :=
  no_notify_below_ten (some ⟨none, 9, 0, none, 0⟩) 9 none 2 (by decide)

/-- Claim C10: the `currentCount >= 10` conjunct in the notify guard is
redundant: whenever the crossing test holds the fresh milestone is positive,
hence at least 10, hence the count is at least 10; so the engine with the
conjunct removed takes the same decision and performs the same state update
on every stored record and snapshot. -/
theorem count_guard_redundant (r : EventRecord) (count : Nat)
    (slug : Option String) (now : Nat) :
    processTrackedNoGuard r count slug now = processTracked r count slug now := by
  by_cases hf : shouldNotifyFlag r.last_milestone_notified (getNextMilestone count) = true
  · have h10 : 10 ≤ count := shouldNotifyFlag_ten_le hf
    simp [processTrackedNoGuard, processTracked, hf, h10]
  · have hf' : shouldNotifyFlag r.last_milestone_notified (getNextMilestone count) = false :=
      Bool.eq_false_iff.mpr hf
    simp [processTrackedNoGuard, processTracked, hf']

end Scrapyard
